import Mathlib

/-!
Verification of the Coderr freelance-marketplace backend.

This file gives a shallow embedding of the data model and the mutating
operations of the repository (Django models, DRF serializers and views)
and proves properties of them.  The database is a record of lists of
rows; every operation takes the database and returns the database that
persists afterwards together with an `Except` outcome, so that both
atomic and non-atomic failure behaviour can be expressed.

Conventions of the embedding:
* ids are `Nat`; fresh ids come from a `nextId` counter;
* `price` (a fixed-point decimal with 2 places in the source) is an
  integer number of cents (`Int`);
* automatic timestamps (`created_at` / `updated_at`), images as binary
  data, pagination and the HTTP permission layer are outside the model;
  the operations model the serializer validation and the row writes that
  happen once the permission checks of the views have passed.
-/

namespace Coderr

/-- The `offer_type` choices of `OfferDetail.OfferType`
(offers_app/models.py): basic, standard, premium. -/
inductive OfferType
  | basic
  | standard
  | premium
deriving DecidableEq, Repr

/-- The database string stored for an `OfferType` choice. -/
def offerTypeKey : OfferType → String
  | .basic => "basic"
  | .standard => "standard"
  | .premium => "premium"

/-- Parsing of an incoming `offer_type` string, as the DRF `ChoiceField`
accepts exactly the three choice strings. -/
def parseOfferType (s : String) : Option OfferType :=
  if s = "basic" then some OfferType.basic
  else if s = "standard" then some OfferType.standard
  else if s = "premium" then some OfferType.premium
  else none

/-- The `status` choices of `Order.OrderStatus` (orders_app/models.py). -/
inductive OrderStatus
  | in_progress
  | completed
  | cancelled
deriving DecidableEq, Repr

/-- The database string stored for an `OrderStatus` choice. -/
def orderStatusKey : OrderStatus → String
  | .in_progress => "in_progress"
  | .completed => "completed"
  | .cancelled => "cancelled"

/-- Parsing of an incoming `status` string by the `ChoiceField` of the
model serializer. -/
def parseOrderStatus (s : String) : Option OrderStatus :=
  if s = "in_progress" then some OrderStatus.in_progress
  else if s = "completed" then some OrderStatus.completed
  else if s = "cancelled" then some OrderStatus.cancelled
  else none

/-- The profile role choices of `Profile.UserType` (profile_app/models.py). -/
inductive UserType
  | customer
  | business
deriving DecidableEq, Repr

/-- A row of the Django `User` table, restricted to the fields the
application reads and writes. -/
structure UserRec where
  id : Nat
  username : String
  email : String
  first_name : String
  last_name : String
deriving DecidableEq, Repr

/-- A `Profile` row (profile_app/models.py), one-to-one with a user. -/
structure Profile where
  userId : Nat
  file : Option String
  location : String
  tel : String
  description : String
  working_hours : String
  type : UserType
deriving DecidableEq, Repr

/-- An `Offer` row (offers_app/models.py). -/
structure Offer where
  id : Nat
  userId : Nat
  title : String
  description : String
  image : Option String
deriving DecidableEq, Repr

/-- An `OfferDetail` row (offers_app/models.py), child of one offer. -/
structure OfferDetail where
  id : Nat
  offerId : Nat
  title : String
  price : Int
  delivery_time_in_days : Nat
  description : String
  image : Option String
  revisions : Int
  features : List String
  offer_type : OfferType
deriving DecidableEq, Repr

/-- An `Order` row (orders_app/models.py): a value snapshot of the
purchased detail, with no reference to the `OfferDetail` row. -/
structure Order where
  id : Nat
  customer_user : Nat
  business_user : Nat
  title : String
  price : Int
  revisions : Int
  delivery_time_in_days : Nat
  features : List String
  offer_type : OfferType
  status : OrderStatus
deriving DecidableEq, Repr

/-- A `Review` row (reviews_app/models.py). -/
structure Review where
  id : Nat
  business_user : Nat
  reviewer : Nat
  rating : Nat
  description : String
deriving DecidableEq, Repr

/-- The relational store: one list of rows per table, plus a fresh-id
counter standing for the auto-increment primary keys. -/
structure DB where
  users : List UserRec
  profiles : List Profile
  offers : List Offer
  offerDetails : List OfferDetail
  orders : List Order
  reviews : List Review
  nextId : Nat
deriving DecidableEq, Repr

/-- The error outcomes the embedded operations distinguish: DRF
`ValidationError` (HTTP 400) carrying a message, and not-found
(HTTP 404). -/
inductive ApiError
  | validation (msg : String)
  | notFound
deriving DecidableEq, Repr

/-! ### Offer creation (offers_app/api/serializers.py) -/

/-- The nested detail payload accepted by `OfferDetailCreateSerializer`
on creation.  `revisions` is optional (`required=False, allow_null=True,
min_value=-1, default=0`); the remaining declared fields are given
directly. -/
structure DetailPayload where
  title : String
  price : Int
  delivery_time_in_days : Nat
  description : String
  image : Option String
  revisions : Option Int
  features : List String
  offer_type : String
deriving DecidableEq, Repr

/-- Field-level validation of one nested detail payload performed by
`OfferDetailCreateSerializer.is_valid`: the `offer_type` must be one of
the three choices and `revisions`, when given, must be at least -1. -/
def detailPayloadValid (d : DetailPayload) : Bool :=
  (parseOfferType d.offer_type).isSome &&
    (match d.revisions with
     | none => true
     | some v => decide (-1 ≤ v))

/-- `validate_revisions`: an omitted or null `revisions` becomes 0. -/
def normalizeRevisions : Option Int → Int
  | none => 0
  | some v => v

/-- The `OfferDetail` row produced for one validated payload
(`OfferDetail.objects.create(offer=offer, **detail_item)`). -/
def mkOfferDetail (offerId detailId : Nat) (d : DetailPayload) : OfferDetail :=
  { id := detailId
    offerId := offerId
    title := d.title
    price := d.price
    delivery_time_in_days := d.delivery_time_in_days
    description := d.description
    image := d.image
    revisions := normalizeRevisions d.revisions
    features := d.features
    offer_type := (parseOfferType d.offer_type).getD OfferType.standard }

/-- The detail rows created by the loop in
`OfferCreateUpdateSerializer.create`, with consecutive fresh ids. -/
def buildDetails (offerId : Nat) : Nat → List DetailPayload → List OfferDetail
  | _, [] => []
  | nextId, d :: rest => mkOfferDetail offerId nextId d :: buildDetails offerId (nextId + 1) rest

/-- `POST /api/offers/`: `OfferCreateUpdateSerializer.is_valid` followed
by `create`.  Field validation of the nested payloads runs first (DRF
validates the children of the `details` list before calling
`validate_details`), then `validate_details` requires exactly 3 items
because `self.instance is None` on creation.  The writes happen inside
`transaction.atomic()`, so an error leaves the database unchanged. -/
def createOffer (db : DB) (userId : Nat) (title description : String)
    (image : Option String) (details : List DetailPayload) :
    DB × Except ApiError Nat :=
  if ¬ details.all detailPayloadValid then
    (db, .error (.validation "invalid detail payload"))
  else if details.length ≠ 3 then
    (db, .error (.validation
      ("Exactly 3 detail packages are required for creation, but "
        ++ toString details.length ++ " were provided.")))
  else
    let offerId := db.nextId
    let offer : Offer :=
      { id := offerId, userId := userId, title := title
        description := description, image := image }
    let newDetails := buildDetails offerId (offerId + 1) details
    ({ db with
        offers := db.offers ++ [offer]
        offerDetails := db.offerDetails ++ newDetails
        nextId := offerId + 1 + details.length }, .ok offerId)

/-! ### Offer listing: aggregates and filters
(offers_app/api/views.py `OfferViewSet.get_queryset`,
offers_app/api/filters.py `OfferFilter`) -/

/-- The detail rows of one offer (`details` reverse relation). -/
def detailsOf (db : DB) (offerId : Nat) : List OfferDetail :=
  db.offerDetails.filter (fun d => d.offerId = offerId)

/-- The `min_price` annotation: `Min` over the prices of the details of
the offer, recomputed from the current rows; the SQL aggregate of an
empty set is NULL, modelled as `none`. -/
def annotMinPrice (db : DB) (offerId : Nat) : Option Int :=
  ((detailsOf db offerId).map (fun d => d.price)).min?

/-- The `min_delivery_time_days` annotation: `Min` over
`delivery_time_in_days` of the details of the offer. -/
def annotMinDelivery (db : DB) (offerId : Nat) : Option Nat :=
  ((detailsOf db offerId).map (fun d => d.delivery_time_in_days)).min?

/-- Whether one character list begins with another. -/
def listStartsWith : List Char → List Char → Bool
  | _, [] => true
  | [], _ :: _ => false
  | h :: ht, n :: nt => (h = n) && listStartsWith ht nt

/-- Whether a character list occurs contiguously inside another. -/
def listContainsSeq : List Char → List Char → Bool
  | [], needle => needle.isEmpty
  | h :: t, needle => listStartsWith (h :: t) needle || listContainsSeq t needle

/-- The substring test of the DRF search backend (case handling
elided). -/
def strContains (hay needle : String) : Bool :=
  listContainsSeq hay.data needle.data

/-- The query parameters of `GET /api/offers/` handled by `OfferFilter`
and the search backend.  Ordering and pagination are not modelled. -/
structure OfferListParams where
  creator_id : Option Nat := none
  min_price : Option Int := none
  max_delivery_time : Option Nat := none
  search : Option String := none
deriving DecidableEq, Repr

/-- One offer passing the list filters: `creator_id` is an exact match
on the owner id, `min_price` keeps offers whose annotated minimum price
is greater than or equal to the value (`lookup_expr=gte`),
`max_delivery_time` keeps offers whose annotated minimum delivery time
is less than or equal to the value (`lookup_expr=lte`); a NULL
aggregate compares as false in SQL, excluding detail-less offers.  The
search keeps offers whose title or description contains the text. -/
def offerPassesFilters (db : DB) (p : OfferListParams) (o : Offer) : Bool :=
  (match p.creator_id with
   | none => true
   | some c => decide (o.userId = c)) &&
  (match p.min_price with
   | none => true
   | some v =>
     match annotMinPrice db o.id with
     | none => false
     | some m => decide (v ≤ m)) &&
  (match p.max_delivery_time with
   | none => true
   | some v =>
     match annotMinDelivery db o.id with
     | none => false
     | some m => decide (m ≤ v)) &&
  (match p.search with
   | none => true
   | some s => strContains o.title s || strContains o.description s)

/-- The rows returned by the offer list operation (ordering and
pagination elided). -/
def listOffers (db : DB) (p : OfferListParams) : List Offer :=
  db.offers.filter (offerPassesFilters db p)

/-! ### Offer update (offers_app/api/serializers.py
`OfferCreateUpdateSerializer.update`) -/

/-- One nested detail patch item of a partial offer update: with the
root serializer partial, absent fields of `OfferDetailCreateSerializer`
are skipped, so every declared field is optional.  `revisions` can also
be given as null, which `validate_revisions` turns into 0. -/
structure DetailPatch where
  title : Option String := none
  price : Option Int := none
  delivery_time_in_days : Option Nat := none
  description : Option String := none
  image : Option String := none
  revisions : Option (Option Int) := none
  features : Option (List String) := none
  offer_type : Option String := none
deriving DecidableEq, Repr

/-- Field validation of one detail patch item performed by the
`is_valid` call of the view before `update` runs: a present
`offer_type` must be one of the choices and a present non-null
`revisions` must be at least -1. -/
def detailPatchFieldsValid (p : DetailPatch) : Bool :=
  (match p.offer_type with
   | none => true
   | some s => (parseOfferType s).isSome) &&
  (match p.revisions with
   | none => true
   | some none => true
   | some (some v) => decide (-1 ≤ v))

/-- The partial save of one matched detail
(`OfferDetailCreateSerializer(instance, data, partial=True).save()`):
exactly the fields present in the item are replaced. -/
def applyDetailPatch (d : OfferDetail) (p : DetailPatch) : OfferDetail :=
  { d with
    title := p.title.getD d.title
    price := p.price.getD d.price
    delivery_time_in_days := p.delivery_time_in_days.getD d.delivery_time_in_days
    description := p.description.getD d.description
    image := match p.image with | none => d.image | some i => some i
    revisions := match p.revisions with
      | none => d.revisions
      | some r => normalizeRevisions r
    features := p.features.getD d.features
    offer_type := match p.offer_type with
      | none => d.offer_type
      | some s => (parseOfferType s).getD d.offer_type }

/-- Lookup of the existing detail of this offer carrying the given
`offer_type` string.  The source builds a dictionary keyed by
`offer_type` from `instance.details.all()`; since the data model keeps
one detail per type per offer, taking the first match is the same
lookup. -/
def findDetailByType (db : DB) (offerId : Nat) (ot : String) : Option OfferDetail :=
  db.offerDetails.find? (fun d => d.offerId = offerId && offerTypeKey d.offer_type = ot)

/-- Replacement of the stored row with the given id. -/
def setDetail (db : DB) (detailId : Nat) (nd : OfferDetail) : DB :=
  let rows := db.offerDetails.map (fun x => if x.id = detailId then nd else x)
  { db with offerDetails := rows }

/-- The detail loop of `OfferCreateUpdateSerializer.update`, applied
after the top-level fields were already saved.  Each item must carry an
`offer_type` naming an existing detail of this offer; the matched row
is partially updated and the loop continues.  The loop is not wrapped
in a transaction: a failing item leaves the earlier writes persisted
and returns the state reached so far. -/
def updateDetailsLoop (db : DB) (offerId : Nat) :
    List DetailPatch → DB × Except ApiError Unit
  | [] => (db, .ok ())
  | p :: rest =>
    match p.offer_type with
    | none =>
      (db, .error (.validation "Each detail to be updated must have an offer_type."))
    | some ot =>
      match findDetailByType db offerId ot with
      | none =>
        (db, .error (.validation
          ("A detail with offer_type " ++ ot ++ " does not exist for this offer.")))
      | some d => updateDetailsLoop (setDetail db d.id (applyDetailPatch d p)) offerId rest

/-- The top-level patch of `PATCH /api/offers/{id}/`. -/
structure OfferPatch where
  title : Option String := none
  description : Option String := none
  image : Option String := none
  details : Option (List DetailPatch) := none
deriving DecidableEq, Repr

/-- The top-level field replacement of
`OfferCreateUpdateSerializer.update` (`validated_data.get` with the
current value as default, then `instance.save()`). -/
def applyOfferPatch (o : Offer) (p : OfferPatch) : Offer :=
  { o with
    title := p.title.getD o.title
    description := p.description.getD o.description
    image := match p.image with | none => o.image | some i => some i }

/-- `PATCH /api/offers/{id}/`: after the lookup, `is_valid` checks the
fields of every nested patch item (before any write); then the
top-level offer fields are saved, and then the detail loop runs.
`validate_details` does not constrain the item count here because
`self.instance` is set on update. -/
def updateOffer (db : DB) (offerId : Nat) (patch : OfferPatch) :
    DB × Except ApiError Unit :=
  match db.offers.find? (fun o => o.id = offerId) with
  | none => (db, .error .notFound)
  | some _ =>
    if (patch.details.getD []).all detailPatchFieldsValid then
      let offers2 := db.offers.map
        (fun o => if o.id = offerId then applyOfferPatch o patch else o)
      let db1 := { db with offers := offers2 }
      updateDetailsLoop db1 offerId (patch.details.getD [])
    else (db, .error (.validation "invalid detail patch fields"))

/-! ### Order creation (orders_app/api/views.py `OrderViewSet.create`) -/

/-- `POST /api/orders/`: looks up the `OfferDetail` named by
`offer_detail_id` (404 when absent), rejects ordering an own offer
(`business_user == request.user` gives a 400), and otherwise creates an
`Order` row copying `title, price, revisions, delivery_time_in_days,
features, offer_type` from the detail, with the caller as
`customer_user`, the offer owner as `business_user` and the model
default status `in_progress`.  The parent offer lookup
(`offer_detail.offer.user`) cannot fail under foreign-key integrity;
a dangling parent is mapped to not-found here. -/
def createOrder (db : DB) (customerId : Nat) (offer_detail_id : Nat) :
    DB × Except ApiError Nat :=
  match db.offerDetails.find? (fun d => d.id = offer_detail_id) with
  | none => (db, .error .notFound)
  | some od =>
    match db.offers.find? (fun o => o.id = od.offerId) with
    | none => (db, .error .notFound)
    | some parent =>
      if parent.userId = customerId then
        (db, .error (.validation "You cannot create an order for your own offer."))
      else
        let order : Order :=
          { id := db.nextId
            customer_user := customerId
            business_user := parent.userId
            title := od.title
            price := od.price
            revisions := od.revisions
            delivery_time_in_days := od.delivery_time_in_days
            features := od.features
            offer_type := od.offer_type
            status := OrderStatus.in_progress }
        ({ db with orders := db.orders ++ [order], nextId := db.nextId + 1 },
          .ok db.nextId)

/-! ### Order status update
(orders_app/api/serializers.py `OrderStatusUpdateSerializer`,
orders_app/api/views.py `OrderViewSet.partial_update`) -/

/-- The payload keys outside the declared field set of
`OrderStatusUpdateSerializer` (`input_keys - allowed_keys`). -/
def extraKeys (payload : List (String × String)) : List String :=
  (payload.map (fun kv => kv.1)).filter (fun k => k ≠ "status")

/-- Second half of the status update: the `validate` hook of
`OrderStatusUpdateSerializer` rejects the payload when it holds any key
outside the declared field set, naming the unrecognized keys; an
allowed payload saves the new status (or nothing, when the partial
payload was empty). -/
def updateOrderStatusValidated (db : DB) (orderId : Nat)
    (payload : List (String × String)) (st? : Option OrderStatus) :
    DB × Except ApiError Unit :=
  if (extraKeys payload).isEmpty then
    match st? with
    | some st =>
      let orders2 := db.orders.map
        (fun o => if o.id = orderId then { o with status := st } else o)
      ({ db with orders := orders2 }, .ok ())
    | none => (db, .ok ())
  else
    (db, .error (.validation
      ("Only the status field can be updated. Unrecognized fields provided: "
        ++ String.intercalate ", " (extraKeys payload))))

/-- `PATCH /api/orders/{id}/`: the order is looked up (404 when not
visible), then DRF field validation runs first, so a `status` value
outside the choices fails before the extra-key check of `validate`;
afterwards `updateOrderStatusValidated` applies the strict key check
and the write. -/
def updateOrderStatus (db : DB) (orderId : Nat)
    (payload : List (String × String)) : DB × Except ApiError Unit :=
  match db.orders.find? (fun o => o.id = orderId) with
  | none => (db, .error .notFound)
  | some _ =>
    match payload.find? (fun kv => kv.1 = "status") with
    | some (_, sv) =>
      match parseOrderStatus sv with
      | none => (db, .error (.validation (sv ++ " is not a valid choice.")))
      | some st => updateOrderStatusValidated db orderId payload (some st)
    | none => updateOrderStatusValidated db orderId payload none

/-! ### Review creation (reviews_app/api/serializers.py
`ReviewCreateSerializer`, reviews_app/models.py `Review.Meta`) -/

/-- `POST /api/reviews/`: field validation checks the rating validators
(`MinValueValidator(1)`, `MaxValueValidator(5)`), then the `validate`
hook rejects a self-review and then a duplicate `(business_user,
reviewer)` pair (also a database unique constraint); on success the row
is inserted with the caller as `reviewer`. -/
def createReview (db : DB) (reviewerId : Nat) (business_user : Nat)
    (rating : Nat) (description : String) : DB × Except ApiError Nat :=
  if rating < 1 ∨ 5 < rating then
    (db, .error (.validation "rating must be between 1 and 5"))
  else if business_user = reviewerId then
    (db, .error (.validation "You cannot create a review for yourself!"))
  else if db.reviews.any
      (fun r => r.business_user = business_user && r.reviewer = reviewerId) then
    (db, .error (.validation "You have already submitted a review for this business."))
  else
    let r : Review :=
      { id := db.nextId, business_user := business_user
        reviewer := reviewerId, rating := rating, description := description }
    ({ db with reviews := db.reviews ++ [r], nextId := db.nextId + 1 },
      .ok db.nextId)

/-! ### Review update (reviews_app/api/serializers.py
`ReviewUpdateSerializer`, reviews_app/api/views.py `ReviewViewSet.update`) -/

/-- A raw JSON scalar of an update payload. -/
inductive JVal
  | jn (v : Int)
  | js (v : String)
deriving DecidableEq, Repr

/-- `PATCH /api/reviews/{id}/`: `ReviewUpdateSerializer` declares only
`rating` and `description`, so every other payload key is dropped by
DRF without an error.  A present `rating` must be an integer in 1..5;
a present `description` is stored (DRF `CharField` coerces a number to
its decimal string).  All other review fields keep their values. -/
def updateReview (db : DB) (reviewId : Nat) (payload : List (String × JVal)) :
    DB × Except ApiError Unit :=
  match db.reviews.find? (fun r => r.id = reviewId) with
  | none => (db, .error .notFound)
  | some rv =>
    let step1 : Except ApiError Review :=
      match payload.find? (fun kv => kv.1 = "rating") with
      | none => .ok rv
      | some (_, .js _) => .error (.validation "A valid integer is required.")
      | some (_, .jn v) =>
        if 1 ≤ v ∧ v ≤ 5 then .ok { rv with rating := v.toNat }
        else .error (.validation "rating must be between 1 and 5")
    match step1 with
    | .error e => (db, .error e)
    | .ok rv1 =>
      let rv2 : Review :=
        match payload.find? (fun kv => kv.1 = "description") with
        | none => rv1
        | some (_, .js s) => { rv1 with description := s }
        | some (_, .jn n) => { rv1 with description := toString n }
      let reviews2 := db.reviews.map (fun r => if r.id = reviewId then rv2 else r)
      ({ db with reviews := reviews2 }, .ok ())

/-! ### Profile update (profile_app/api/serializers.py
`ProfileSerializer.update`) -/

/-- The patch payload of `PATCH /api/profile/{pk}/`, following the
writable fields of `ProfileSerializer`: `email`, `first_name` and
`last_name` target the linked `User` row, the remaining recognized
fields target the `Profile` row.  `username` is declared read-only;
`type` is a declared model field and is not in `read_only_fields`, so
it is writable.  Email format validation is elided. -/
structure ProfilePatch where
  email : Option String := none
  first_name : Option String := none
  last_name : Option String := none
  file : Option String := none
  location : Option String := none
  tel : Option String := none
  description : Option String := none
  working_hours : Option String := none
  type : Option UserType := none
  username : Option String := none
deriving DecidableEq, Repr

/-- `ProfileSerializer.update`: the nested user data is popped and
written to the `User` row field by field with the current value as
default; the remaining validated data is written to the `Profile` row.
The read-only `username` never reaches `validated_data`, so it is
ignored. -/
def updateProfile (db : DB) (userId : Nat) (patch : ProfilePatch) :
    DB × Except ApiError Unit :=
  match db.profiles.find? (fun p => p.userId = userId) with
  | none => (db, .error .notFound)
  | some _ =>
    let users2 := db.users.map fun u =>
      if u.id = userId then
        { u with
            email := patch.email.getD u.email
            first_name := patch.first_name.getD u.first_name
            last_name := patch.last_name.getD u.last_name }
      else u
    let profiles2 := db.profiles.map fun pr =>
      if pr.userId = userId then
        { pr with
            file := match patch.file with | none => pr.file | some f => some f
            location := patch.location.getD pr.location
            tel := patch.tel.getD pr.tel
            description := patch.description.getD pr.description
            working_hours := patch.working_hours.getD pr.working_hours
            type := patch.type.getD pr.type }
      else pr
    ({ db with users := users2, profiles := profiles2 }, .ok ())

/-! ### Sample rows used by the concrete witnesses -/

/-- An empty store. -/
def emptyDB : DB :=
  { users := [], profiles := [], offers := [], offerDetails := []
    orders := [], reviews := [], nextId := 1 }

/-- A well-formed payload for one package of the given type. -/
def samplePayload (ot : String) (price : Int) : DetailPayload :=
  { title := "pkg", price := price, delivery_time_in_days := 7
    description := "", image := none, revisions := some 2
    features := ["Logo"], offer_type := ot }

/-- Three valid packages, one per type. -/
def samplePayloads : List DetailPayload :=
  [samplePayload "basic" 100, samplePayload "standard" 200, samplePayload "premium" 300]

/-- A detail row of the sample store below. -/
def sampleDetail (detailId : Nat) (ot : OfferType) (price : Int) (days : Nat) :
    OfferDetail :=
  { id := detailId, offerId := 1, title := "pkg", price := price
    delivery_time_in_days := days, description := "", image := none
    revisions := 2, features := ["Logo"], offer_type := ot }

/-- The offer row of the sample store below. -/
def sampleOffer : Offer :=
  { id := 1, userId := 10, title := "Site", description := "d", image := none }

/-- A store holding a business user 10 with offer 1 (details 2, 3, 4),
a customer user 20, and one order and one review between them. -/
def sampleDB : DB :=
  { users :=
      [ { id := 10, username := "biz", email := "b@x.de", first_name := "B", last_name := "Iz" }
      , { id := 20, username := "cus", email := "c@x.de", first_name := "C", last_name := "Us" } ]
    profiles :=
      [ { userId := 10, file := none, location := "", tel := "", description := ""
          working_hours := "", type := UserType.business }
      , { userId := 20, file := none, location := "", tel := "", description := ""
          working_hours := "", type := UserType.customer } ]
    offers := [sampleOffer]
    offerDetails :=
      [ sampleDetail 2 OfferType.basic 100 7
      , sampleDetail 3 OfferType.standard 200 5
      , sampleDetail 4 OfferType.premium 300 3 ]
    orders :=
      [ { id := 5, customer_user := 20, business_user := 10, title := "pkg"
          price := 100, revisions := 2, delivery_time_in_days := 7
          features := ["Logo"], offer_type := OfferType.basic
          status := OrderStatus.in_progress } ]
    reviews :=
      [ { id := 6, business_user := 10, reviewer := 20, rating := 5, description := "top" } ]
    nextId := 30 }

/-! ### Lemmas about offer creation -/

theorem buildDetails_length (offerId : Nat) :
    ∀ (n : Nat) (ds : List DetailPayload), (buildDetails offerId n ds).length = ds.length := by
  intro n ds
  induction ds generalizing n with
  | nil => rfl
  | cons d rest ih => simp [buildDetails, ih]

theorem buildDetails_offerId (offerId : Nat) :
    ∀ (n : Nat) (ds : List DetailPayload) (x : OfferDetail),
      x ∈ buildDetails offerId n ds → x.offerId = offerId := by
  intro n ds
  induction ds generalizing n with
  | nil => intro x hx; simp [buildDetails] at hx
  | cons d rest ih =>
    intro x hx
    simp only [buildDetails, List.mem_cons] at hx
    rcases hx with h | h
    · subst h; rfl
    · exact ih _ x h

/-- C1: offer creation requires exactly 3 nested details and persists
the offer together with its 3 detail rows atomically.  If the details
list does not have exactly 3 items the operation fails with a
`ValidationError` and the database is returned unchanged; with exactly
3 valid payloads it succeeds and the new state holds exactly one new
`Offer` row and 3 new `OfferDetail` rows of that offer, with the other
tables untouched. -/
theorem C1_offer_create_three_details_atomic (db : DB) (u : Nat) (t d : String)
    (img : Option String) (ds : List DetailPayload) :
    (ds.length ≠ 3 →
      ∃ msg, createOffer db u t d img ds = (db, .error (.validation msg)))
    ∧ (ds.length = 3 → ds.all detailPayloadValid = true →
      ∃ oid newDetails,
        (createOffer db u t d img ds).2 = .ok oid
        ∧ (createOffer db u t d img ds).1.offers =
            db.offers ++ [{ id := oid, userId := u, title := t
                            description := d, image := img }]
        ∧ (createOffer db u t d img ds).1.offerDetails = db.offerDetails ++ newDetails
        ∧ newDetails.length = 3
        ∧ (∀ x ∈ newDetails, x.offerId = oid)
        ∧ (createOffer db u t d img ds).1.orders = db.orders
        ∧ (createOffer db u t d img ds).1.reviews = db.reviews
        ∧ (createOffer db u t d img ds).1.users = db.users
        ∧ (createOffer db u t d img ds).1.profiles = db.profiles) := by
  constructor
  · intro hlen
    by_cases hv : ds.all detailPayloadValid
    · refine ⟨"Exactly 3 detail packages are required for creation, but "
        ++ toString ds.length ++ " were provided.", ?_⟩
      simp [createOffer, hv, hlen]
    · exact ⟨"invalid detail payload", by simp [createOffer, hv]⟩
  · intro hlen hv
    refine ⟨db.nextId, buildDetails db.nextId (db.nextId + 1) ds, ?_⟩
    simp only [createOffer, hv, not_true, if_false, hlen, ite_false]
    refine ⟨rfl, rfl, rfl, ?_, ?_, rfl, rfl, rfl, rfl⟩
    · rw [buildDetails_length, hlen]
    · exact buildDetails_offerId db.nextId (db.nextId + 1) ds

/-- Concrete instantiation of `C1_offer_create_three_details_atomic`:
an empty details list is rejected and the three sample payloads are
persisted. -/
theorem C1_offer_create_three_details_atomic_witness :
    (∃ msg, createOffer emptyDB 1 "Fast Website" "desc" none [] =
      (emptyDB, .error (.validation msg)))
    ∧ (∃ oid newDetails,
        (createOffer emptyDB 1 "Fast Website" "desc" none samplePayloads).2 = .ok oid
        ∧ (createOffer emptyDB 1 "Fast Website" "desc" none samplePayloads).1.offers =
            emptyDB.offers ++ [{ id := oid, userId := 1, title := "Fast Website"
                                 description := "desc", image := none }]
        ∧ (createOffer emptyDB 1 "Fast Website" "desc" none samplePayloads).1.offerDetails =
            emptyDB.offerDetails ++ newDetails
        ∧ newDetails.length = 3
        ∧ (∀ x ∈ newDetails, x.offerId = oid)
        ∧ (createOffer emptyDB 1 "Fast Website" "desc" none samplePayloads).1.orders =
            emptyDB.orders
        ∧ (createOffer emptyDB 1 "Fast Website" "desc" none samplePayloads).1.reviews =
            emptyDB.reviews
        ∧ (createOffer emptyDB 1 "Fast Website" "desc" none samplePayloads).1.users =
            emptyDB.users
        ∧ (createOffer emptyDB 1 "Fast Website" "desc" none samplePayloads).1.profiles =
            emptyDB.profiles) :=
  ⟨(C1_offer_create_three_details_atomic emptyDB 1 "Fast Website" "desc" none []).1
      (by decide),
   (C1_offer_create_three_details_atomic emptyDB 1 "Fast Website" "desc" none
      samplePayloads).2 (by decide) (by decide)⟩

/-! ### Lemmas about the offer list -/

theorem int_min?_eq_some_iff {xs : List Int} {a : Int} :
    xs.min? = some a ↔ a ∈ xs ∧ ∀ b ∈ xs, a ≤ b :=
  @List.min?_eq_some_iff Int a _ _ ⟨fun h1 h2 => le_antisymm h1 h2⟩
    (fun x => le_refl x) (fun x y => min_choice x y) (fun _ _ _ => le_min_iff) xs

/-- C2: the annotated `min_price` of an offer is exactly the minimum of
the prices of its current details, `min_delivery_time` is exactly the
minimum of their delivery times, and the `min_price` and
`max_delivery_time` filters keep exactly the offers whose aggregate is
at least, respectively at most, the given value. -/
theorem C2_min_aggregates_and_filters (db : DB) (o : Offer) (m : Int) (dm : Nat)
    (pv : Int) (dv : Nat) :
    (annotMinPrice db o.id = some m ↔
      (m ∈ (detailsOf db o.id).map (fun d => d.price)
        ∧ ∀ q ∈ (detailsOf db o.id).map (fun d => d.price), m ≤ q))
    ∧ (annotMinDelivery db o.id = some dm ↔
      (dm ∈ (detailsOf db o.id).map (fun d => d.delivery_time_in_days)
        ∧ ∀ q ∈ (detailsOf db o.id).map (fun d => d.delivery_time_in_days), dm ≤ q))
    ∧ (o ∈ listOffers db { min_price := some pv } ↔
      (o ∈ db.offers ∧ ∃ mp, annotMinPrice db o.id = some mp ∧ pv ≤ mp))
    ∧ (o ∈ listOffers db { max_delivery_time := some dv } ↔
      (o ∈ db.offers ∧ ∃ md, annotMinDelivery db o.id = some md ∧ md ≤ dv)) := by
  refine ⟨int_min?_eq_some_iff, List.min?_eq_some_iff', ?_, ?_⟩
  · rw [listOffers, List.mem_filter]
    constructor
    · rintro ⟨hmem, hpass⟩
      refine ⟨hmem, ?_⟩
      revert hpass
      simp only [offerPassesFilters]
      cases annotMinPrice db o.id with
      | none => simp
      | some mp => intro h; exact ⟨mp, rfl, by simpa using h⟩
    · rintro ⟨hmem, mp, hmp, hle⟩
      refine ⟨hmem, ?_⟩
      simp [offerPassesFilters, hmp, hle]
  · rw [listOffers, List.mem_filter]
    constructor
    · rintro ⟨hmem, hpass⟩
      refine ⟨hmem, ?_⟩
      revert hpass
      simp only [offerPassesFilters]
      cases annotMinDelivery db o.id with
      | none => simp
      | some md => intro h; exact ⟨md, rfl, by simpa using h⟩
    · rintro ⟨hmem, md, hmd, hle⟩
      refine ⟨hmem, ?_⟩
      simp [offerPassesFilters, hmd, hle]

/-! ### Lemmas about order creation -/

/-- C3: ordering by `offer_detail_id` fails 404 when the detail does
not exist, fails with the own-offer `ValidationError` when the offer
owner is the caller, and otherwise appends one order copying the six
snapshot fields verbatim with `status = in_progress`; creation
preserves the invariant that no order has equal customer and business
users. -/
theorem C3_order_creation_snapshot (db : DB) (cid odid : Nat)
    (od : OfferDetail) (parent : Offer) :
    (db.offerDetails.find? (fun d => d.id = odid) = none →
      createOrder db cid odid = (db, .error .notFound))
    ∧ (db.offerDetails.find? (fun d => d.id = odid) = some od →
       db.offers.find? (fun o => o.id = od.offerId) = some parent →
       parent.userId = cid →
       createOrder db cid odid =
         (db, .error (.validation "You cannot create an order for your own offer.")))
    ∧ (db.offerDetails.find? (fun d => d.id = odid) = some od →
       db.offers.find? (fun o => o.id = od.offerId) = some parent →
       parent.userId ≠ cid →
       ∃ oid ord,
         (createOrder db cid odid).2 = .ok oid
         ∧ (createOrder db cid odid).1.orders = db.orders ++ [ord]
         ∧ ord.customer_user = cid ∧ ord.business_user = parent.userId
         ∧ ord.title = od.title ∧ ord.price = od.price
         ∧ ord.revisions = od.revisions
         ∧ ord.delivery_time_in_days = od.delivery_time_in_days
         ∧ ord.features = od.features ∧ ord.offer_type = od.offer_type
         ∧ ord.status = OrderStatus.in_progress)
    ∧ ((∀ o ∈ db.orders, o.customer_user ≠ o.business_user) →
       ∀ o ∈ (createOrder db cid odid).1.orders,
         o.customer_user ≠ o.business_user) := by
  refine ⟨?_, ?_, ?_, ?_⟩
  · intro h; simp [createOrder, h]
  · intro h1 h2 h3; simp [createOrder, h1, h2, h3]
  · intro h1 h2 h3
    refine ⟨db.nextId,
      { id := db.nextId, customer_user := cid, business_user := parent.userId
        title := od.title, price := od.price, revisions := od.revisions
        delivery_time_in_days := od.delivery_time_in_days, features := od.features
        offer_type := od.offer_type, status := OrderStatus.in_progress }, ?_⟩
    simp [createOrder, h1, h2, h3]
  · intro hinv o ho
    rcases h1 : db.offerDetails.find? (fun d => d.id = odid) with _ | od2
    · simp only [createOrder, h1] at ho; exact hinv o ho
    · rcases h2 : db.offers.find? (fun o2 => o2.id = od2.offerId) with _ | par2
      · simp only [createOrder, h1, h2] at ho; exact hinv o ho
      · by_cases h3 : par2.userId = cid
        · simp only [createOrder, h1, h2, if_pos h3] at ho; exact hinv o ho
        · simp only [createOrder, h1, h2, if_neg h3] at ho
          rcases List.mem_append.1 ho with h | h
          · exact hinv o h
          · simp only [List.mem_singleton] at h
            subst h
            simpa using Ne.symm h3

/-- Concrete instantiation of `C3_order_creation_snapshot` on the
sample store: detail 99 is absent, detail 2 belongs to user 10, so
caller 10 is refused and caller 20 gets a snapshot order. -/
theorem C3_order_creation_snapshot_witness :
    (createOrder sampleDB 20 99 = (sampleDB, .error .notFound))
    ∧ (createOrder sampleDB 10 2 =
        (sampleDB, .error (.validation "You cannot create an order for your own offer.")))
    ∧ (∃ oid ord,
        (createOrder sampleDB 20 2).2 = .ok oid
        ∧ (createOrder sampleDB 20 2).1.orders = sampleDB.orders ++ [ord]
        ∧ ord.customer_user = 20 ∧ ord.business_user = sampleOffer.userId
        ∧ ord.title = (sampleDetail 2 OfferType.basic 100 7).title
        ∧ ord.price = (sampleDetail 2 OfferType.basic 100 7).price
        ∧ ord.revisions = (sampleDetail 2 OfferType.basic 100 7).revisions
        ∧ ord.delivery_time_in_days =
            (sampleDetail 2 OfferType.basic 100 7).delivery_time_in_days
        ∧ ord.features = (sampleDetail 2 OfferType.basic 100 7).features
        ∧ ord.offer_type = (sampleDetail 2 OfferType.basic 100 7).offer_type
        ∧ ord.status = OrderStatus.in_progress)
    ∧ (∀ o ∈ (createOrder sampleDB 20 2).1.orders,
        o.customer_user ≠ o.business_user) := by
  refine ⟨?_, ?_, ?_, ?_⟩
  · exact (C3_order_creation_snapshot sampleDB 20 99
      (sampleDetail 2 OfferType.basic 100 7) sampleOffer).1 (by rfl)
  · exact (C3_order_creation_snapshot sampleDB 10 2
      (sampleDetail 2 OfferType.basic 100 7) sampleOffer).2.1 (by rfl) (by rfl) (by rfl)
  · exact (C3_order_creation_snapshot sampleDB 20 2
      (sampleDetail 2 OfferType.basic 100 7) sampleOffer).2.2.1
      (by rfl) (by rfl) (by decide)
  · exact (C3_order_creation_snapshot sampleDB 20 2
      (sampleDetail 2 OfferType.basic 100 7) sampleOffer).2.2.2 (by decide)

/-! ### Lemmas about the nested offer update -/

/-- The identifying data of a detail row that the update loop never
changes: primary key, parent offer and type discriminator. -/
def detailKey (d : OfferDetail) : Nat × Nat × String :=
  (d.id, d.offerId, offerTypeKey d.offer_type)

/-- A patch item that names the type of an existing detail of the
offer. -/
def patchTargets (db : DB) (oid : Nat) (q : DetailPatch) : Prop :=
  ∃ ot, q.offer_type = some ot ∧ (findDetailByType db oid ot).isSome = true

theorem parseOfferType_key (t : OfferType) : parseOfferType (offerTypeKey t) = some t := by
  cases t <;> rfl

/-- Patching a detail with the item that matched it by type keeps its
key: the ids are untouched and the written `offer_type` equals the
stored one. -/
theorem applyDetailPatch_key (d : OfferDetail) (p : DetailPatch) (ot : String)
    (hp : p.offer_type = some ot) (hot : offerTypeKey d.offer_type = ot) :
    detailKey (applyDetailPatch d p) = detailKey d := by
  have hparse : parseOfferType ot = some d.offer_type := by
    rw [← hot, parseOfferType_key]
  simp [detailKey, applyDetailPatch, hp, hparse]

theorem ids_eq_of_keys_eq {l1 l2 : List OfferDetail}
    (h : l1.map detailKey = l2.map detailKey) :
    l1.map (fun d => d.id) = l2.map (fun d => d.id) := by
  have h2 := congrArg (List.map (fun k : Nat × Nat × String => k.1)) h
  simpa [List.map_map, Function.comp] using h2

/-- Replacing the matched row by its patched version keeps the keys of
every stored detail (the ids being unique, no other row is hit). -/
theorem setDetail_keys (db : DB) (d nd : OfferDetail)
    (hd : d ∈ db.offerDetails)
    (hnd : detailKey nd = detailKey d)
    (hnodup : (db.offerDetails.map (fun x => x.id)).Nodup) :
    (setDetail db d.id nd).offerDetails.map detailKey
      = db.offerDetails.map detailKey := by
  show ((db.offerDetails.map (fun x => if x.id = d.id then nd else x)).map detailKey)
      = db.offerDetails.map detailKey
  rw [List.map_map]
  apply List.map_congr_left
  intro x hx
  by_cases hid : x.id = d.id
  · have hxd : x = d :=
      List.inj_on_of_nodup_map hnodup hx hd hid
    simp [Function.comp, hid, hxd, hnd]
  · simp [Function.comp, hid]

/-- The existence of a detail with a given type depends only on the
keys of the stored details. -/
theorem findDetailByType_isSome_congr {db1 db2 : DB} (oid : Nat) (ot : String)
    (h : db1.offerDetails.map detailKey = db2.offerDetails.map detailKey) :
    ((findDetailByType db1 oid ot).isSome = true)
      ↔ ((findDetailByType db2 oid ot).isSome = true) := by
  rw [findDetailByType, findDetailByType]
  simp only [List.find?_isSome]
  constructor
  · rintro ⟨x, hx, hpx⟩
    have hk : detailKey x ∈ db2.offerDetails.map detailKey := by
      rw [← h]; exact List.mem_map_of_mem detailKey hx
    obtain ⟨y, hy, hky⟩ := List.mem_map.1 hk
    refine ⟨y, hy, ?_⟩
    have h2 : y.offerId = x.offerId := congrArg (fun k => k.2.1) hky
    have h3 : offerTypeKey y.offer_type = offerTypeKey x.offer_type :=
      congrArg (fun k => k.2.2) hky
    simp only [Bool.and_eq_true, decide_eq_true_eq] at hpx ⊢
    exact ⟨h2.trans hpx.1, h3.trans hpx.2⟩
  · rintro ⟨x, hx, hpx⟩
    have hk : detailKey x ∈ db1.offerDetails.map detailKey := by
      rw [h]; exact List.mem_map_of_mem detailKey hx
    obtain ⟨y, hy, hky⟩ := List.mem_map.1 hk
    refine ⟨y, hy, ?_⟩
    have h2 : y.offerId = x.offerId := congrArg (fun k => k.2.1) hky
    have h3 : offerTypeKey y.offer_type = offerTypeKey x.offer_type :=
      congrArg (fun k => k.2.2) hky
    simp only [Bool.and_eq_true, decide_eq_true_eq] at hpx ⊢
    exact ⟨h2.trans hpx.1, h3.trans hpx.2⟩

/-- The database reached after applying one matched patch item keeps
the detail keys. -/
theorem loop_step_keys (db : DB) (oid : Nat) (q : DetailPatch) (ot : String)
    (d : OfferDetail)
    (hnodup : (db.offerDetails.map (fun x => x.id)).Nodup)
    (hot : q.offer_type = some ot)
    (hd : findDetailByType db oid ot = some d) :
    (setDetail db d.id (applyDetailPatch d q)).offerDetails.map detailKey
      = db.offerDetails.map detailKey := by
  have hdmem : d ∈ db.offerDetails := List.mem_of_find?_eq_some hd
  have hdp := List.find?_some hd
  simp only [Bool.and_eq_true, decide_eq_true_eq] at hdp
  exact setDetail_keys db d _ hdmem (applyDetailPatch_key d q ot hot hdp.2) hnodup

/-- The update loop never touches the other tables. -/
theorem updateDetailsLoop_frame (oid : Nat) :
    ∀ (ps : List DetailPatch) (db : DB),
      (updateDetailsLoop db oid ps).1.orders = db.orders
      ∧ (updateDetailsLoop db oid ps).1.offers = db.offers
      ∧ (updateDetailsLoop db oid ps).1.reviews = db.reviews
      ∧ (updateDetailsLoop db oid ps).1.users = db.users
      ∧ (updateDetailsLoop db oid ps).1.profiles = db.profiles := by
  intro ps
  induction ps with
  | nil => intro db; exact ⟨rfl, rfl, rfl, rfl, rfl⟩
  | cons p rest ih =>
    intro db
    rcases hot : p.offer_type with _ | ot
    · simp [updateDetailsLoop, hot]
    · rcases hd : findDetailByType db oid ot with _ | d
      · simp [updateDetailsLoop, hot, hd]
      · simp only [updateDetailsLoop, hot, hd]
        exact ih (setDetail db d.id (applyDetailPatch d p))

/-- The update loop succeeds when every item names the type of an
existing detail of the offer. -/
theorem updateDetailsLoop_ok (oid : Nat) :
    ∀ (ps : List DetailPatch) (db : DB),
      (db.offerDetails.map (fun x => x.id)).Nodup →
      (∀ q ∈ ps, patchTargets db oid q) →
      (updateDetailsLoop db oid ps).2 = .ok () := by
  intro ps
  induction ps with
  | nil => intro db _ _; rfl
  | cons p rest ih =>
    intro db hnodup htargets
    obtain ⟨ot, hot, hsome⟩ := htargets p (List.mem_cons_self p rest)
    obtain ⟨d, hd⟩ := Option.isSome_iff_exists.1 hsome
    have hkeys := loop_step_keys db oid p ot d hnodup hot hd
    simp only [updateDetailsLoop, hot, hd]
    apply ih
    · rw [show (setDetail db d.id (applyDetailPatch d p)).offerDetails.map
          (fun x => x.id) = db.offerDetails.map (fun x => x.id) from
        ids_eq_of_keys_eq hkeys]
      exact hnodup
    · intro q hq
      obtain ⟨ot2, hot2, hsome2⟩ := htargets q (List.mem_cons_of_mem p hq)
      exact ⟨ot2, hot2, (findDetailByType_isSome_congr oid ot2 hkeys).2 hsome2⟩

/-- Reaching an item without `offer_type` after a run of matched items
raises the missing-`offer_type` error. -/
theorem updateDetailsLoop_missing_type (oid : Nat) :
    ∀ (pre : List DetailPatch) (db : DB) (p : DetailPatch) (rest : List DetailPatch),
      (db.offerDetails.map (fun x => x.id)).Nodup →
      (∀ q ∈ pre, patchTargets db oid q) →
      p.offer_type = none →
      (updateDetailsLoop db oid (pre ++ p :: rest)).2 =
        .error (.validation "Each detail to be updated must have an offer_type.") := by
  intro pre
  induction pre with
  | nil =>
    intro db p rest _ _ hp
    simp [updateDetailsLoop, hp]
  | cons q pre2 ih =>
    intro db p rest hnodup htargets hp
    obtain ⟨ot, hot, hsome⟩ := htargets q (List.mem_cons_self q pre2)
    obtain ⟨d, hd⟩ := Option.isSome_iff_exists.1 hsome
    have hkeys := loop_step_keys db oid q ot d hnodup hot hd
    simp only [List.cons_append, updateDetailsLoop, hot, hd]
    apply ih
    · rw [show (setDetail db d.id (applyDetailPatch d q)).offerDetails.map
          (fun x => x.id) = db.offerDetails.map (fun x => x.id) from
        ids_eq_of_keys_eq hkeys]
      exact hnodup
    · intro q2 hq2
      obtain ⟨ot2, hot2, hsome2⟩ := htargets q2 (List.mem_cons_of_mem q hq2)
      exact ⟨ot2, hot2, (findDetailByType_isSome_congr oid ot2 hkeys).2 hsome2⟩
    · exact hp

/-- Reaching an item whose `offer_type` exists on no detail of this
offer after a run of matched items raises the unknown-type error. -/
theorem updateDetailsLoop_unknown_type (oid : Nat) :
    ∀ (pre : List DetailPatch) (db : DB) (p : DetailPatch) (rest : List DetailPatch)
      (ot : String),
      (db.offerDetails.map (fun x => x.id)).Nodup →
      (∀ q ∈ pre, patchTargets db oid q) →
      p.offer_type = some ot →
      findDetailByType db oid ot = none →
      (updateDetailsLoop db oid (pre ++ p :: rest)).2 =
        .error (.validation
          ("A detail with offer_type " ++ ot ++ " does not exist for this offer.")) := by
  intro pre
  induction pre with
  | nil =>
    intro db p rest ot _ _ hp hnone
    simp [updateDetailsLoop, hp, hnone]
  | cons q pre2 ih =>
    intro db p rest ot hnodup htargets hp hnone
    obtain ⟨ot1, hot1, hsome1⟩ := htargets q (List.mem_cons_self q pre2)
    obtain ⟨d, hd⟩ := Option.isSome_iff_exists.1 hsome1
    have hkeys := loop_step_keys db oid q ot1 d hnodup hot1 hd
    simp only [List.cons_append, updateDetailsLoop, hot1, hd]
    apply ih
    · rw [show (setDetail db d.id (applyDetailPatch d q)).offerDetails.map
          (fun x => x.id) = db.offerDetails.map (fun x => x.id) from
        ids_eq_of_keys_eq hkeys]
      exact hnodup
    · intro q2 hq2
      obtain ⟨ot2, hot2, hsome2⟩ := htargets q2 (List.mem_cons_of_mem q hq2)
      exact ⟨ot2, hot2, (findDetailByType_isSome_congr oid ot2 hkeys).2 hsome2⟩
    · exact hp
    · have hiff := findDetailByType_isSome_congr oid ot hkeys
      rcases hfd : findDetailByType (setDetail db d.id (applyDetailPatch d q)) oid ot
        with _ | d2
      · rfl
      · exfalso
        have : (findDetailByType db oid ot).isSome = true :=
          (findDetailByType_isSome_congr oid ot hkeys).1 (by rw [hfd]; rfl)
        rw [hnone] at this
        exact Bool.false_ne_true this

/-- C7: the offer update operation, the only path that mutates
`OfferDetail` rows, leaves the order table untouched in every outcome:
an `Order` is a value snapshot, not a live reference to a detail. -/
theorem C7_orders_are_value_snapshots (db : DB) (oid : Nat) (patch : OfferPatch) :
    (updateOffer db oid patch).1.orders = db.orders
    ∧ ∀ ord ∈ db.orders, ord ∈ (updateOffer db oid patch).1.orders := by
  have h : (updateOffer db oid patch).1.orders = db.orders := by
    rcases h1 : db.offers.find? (fun o => o.id = oid) with _ | off
    · simp [updateOffer, h1]
    · by_cases hv : (patch.details.getD []).all detailPatchFieldsValid
      · simp only [updateOffer, h1, if_pos hv]
        exact (updateDetailsLoop_frame oid (patch.details.getD []) _).1
      · simp [updateOffer, h1, hv]
  exact ⟨h, fun ord hm => by rw [h]; exact hm⟩

/-- C4: in a nested offer update, an item without `offer_type` fails
with the missing-`offer_type` `ValidationError`, an item naming a type
that no detail of this offer carries fails with the distinct
unknown-type error, a matched item rewrites exactly the matched row by
its present fields (absent fields keep their values), and any list of
matched items succeeds regardless of its length. -/
theorem C4_offer_update_details (db : DB) (oid : Nat) (off : Offer)
    (patch : OfferPatch) (pre rest : List DetailPatch) (p : DetailPatch)
    (ot : String) (d : OfferDetail)
    (hoff : db.offers.find? (fun o => o.id = oid) = some off)
    (hnodup : (db.offerDetails.map (fun x => x.id)).Nodup) :
    (patch.details = some (pre ++ p :: rest) →
      (pre ++ p :: rest).all detailPatchFieldsValid = true →
      (∀ q ∈ pre, patchTargets db oid q) →
      p.offer_type = none →
      (updateOffer db oid patch).2 =
        .error (.validation "Each detail to be updated must have an offer_type."))
    ∧ (patch.details = some (pre ++ p :: rest) →
      (pre ++ p :: rest).all detailPatchFieldsValid = true →
      (∀ q ∈ pre, patchTargets db oid q) →
      p.offer_type = some ot →
      findDetailByType db oid ot = none →
      (updateOffer db oid patch).2 =
        .error (.validation
          ("A detail with offer_type " ++ ot ++ " does not exist for this offer.")))
    ∧ (patch.details = some [p] →
      detailPatchFieldsValid p = true →
      p.offer_type = some ot →
      findDetailByType db oid ot = some d →
      (updateOffer db oid patch).2 = .ok ()
      ∧ (updateOffer db oid patch).1.offerDetails =
          db.offerDetails.map (fun x => if x.id = d.id then applyDetailPatch d p else x))
    ∧ ((p.title = none → (applyDetailPatch d p).title = d.title)
      ∧ (p.price = none → (applyDetailPatch d p).price = d.price)
      ∧ (p.delivery_time_in_days = none →
          (applyDetailPatch d p).delivery_time_in_days = d.delivery_time_in_days)
      ∧ (p.description = none → (applyDetailPatch d p).description = d.description)
      ∧ (p.image = none → (applyDetailPatch d p).image = d.image)
      ∧ (p.revisions = none → (applyDetailPatch d p).revisions = d.revisions)
      ∧ (p.features = none → (applyDetailPatch d p).features = d.features)
      ∧ (applyDetailPatch d p).id = d.id
      ∧ (applyDetailPatch d p).offerId = d.offerId
      ∧ (∀ t, p.title = some t → (applyDetailPatch d p).title = t)
      ∧ (∀ v, p.price = some v → (applyDetailPatch d p).price = v)
      ∧ (∀ n, p.delivery_time_in_days = some n →
          (applyDetailPatch d p).delivery_time_in_days = n))
    ∧ (∀ ps, patch.details = some ps →
        ps.all detailPatchFieldsValid = true →
        (∀ q ∈ ps, patchTargets db oid q) →
        (updateOffer db oid patch).2 = .ok ()) := by
  refine ⟨?_, ?_, ?_, ?_, ?_⟩
  · intro hdet hvalid htargets hp
    simp only [updateOffer, hoff, hdet, Option.getD_some, hvalid, if_true]
    exact updateDetailsLoop_missing_type oid pre _ p rest hnodup htargets hp
  · intro hdet hvalid htargets hp hnone
    simp only [updateOffer, hoff, hdet, Option.getD_some, hvalid, if_true]
    exact updateDetailsLoop_unknown_type oid pre _ p rest ot hnodup htargets hp hnone
  · intro hdet hvalid hp hd
    simp only [findDetailByType] at hd
    constructor
    · simp only [updateOffer, hoff, hdet, Option.getD_some, List.all_cons,
        List.all_nil, hvalid, Bool.and_true, if_true]
      simp only [updateDetailsLoop, hp, findDetailByType, hd]
    · simp only [updateOffer, hoff, hdet, Option.getD_some, List.all_cons,
        List.all_nil, hvalid, Bool.and_true, if_true]
      simp only [updateDetailsLoop, hp, findDetailByType, hd]
      rfl
  · refine ⟨?_, ?_, ?_, ?_, ?_, ?_, ?_, rfl, rfl, ?_, ?_, ?_⟩
    · intro h; simp [applyDetailPatch, h]
    · intro h; simp [applyDetailPatch, h]
    · intro h; simp [applyDetailPatch, h]
    · intro h; simp [applyDetailPatch, h]
    · intro h; simp [applyDetailPatch, h]
    · intro h; simp [applyDetailPatch, h]
    · intro h; simp [applyDetailPatch, h]
    · intro t h; simp [applyDetailPatch, h]
    · intro v h; simp [applyDetailPatch, h]
    · intro n h; simp [applyDetailPatch, h]
  · intro ps hdet hvalid htargets
    simp only [updateOffer, hoff, hdet, Option.getD_some, hvalid, if_true]
    exact updateDetailsLoop_ok oid ps _ hnodup htargets

/-- A store whose offer 1 has only a basic and a standard detail. -/
def sampleDB2 : DB :=
  { sampleDB with offerDetails :=
      [sampleDetail 2 OfferType.basic 100 7, sampleDetail 3 OfferType.standard 200 5] }

/-- A patch item matching the basic detail and changing its price. -/
def c4item : DetailPatch := { price := some 150, offer_type := some "basic" }

/-- A patch item without an `offer_type`. -/
def c4noType : DetailPatch := { title := some "x" }

/-- Concrete instantiation of `C4_offer_update_details` on `sampleDB2`:
a second item without `offer_type` fails with the missing-key error, an
item naming the absent premium type fails with the unknown-type error,
the single matched item rewrites only the basic row, absent fields are
kept, and a one-item patch succeeds although the offer has more
details. -/
theorem C4_offer_update_details_witness :
    ((updateOffer sampleDB2 1 { details := some [c4item, c4noType] }).2 =
      .error (.validation "Each detail to be updated must have an offer_type."))
    ∧ ((updateOffer sampleDB2 1
          { details := some [c4item, { offer_type := some "premium" }] }).2 =
      .error (.validation
        "A detail with offer_type premium does not exist for this offer."))
    ∧ ((updateOffer sampleDB2 1 { details := some [c4item] }).2 = .ok ()
      ∧ (updateOffer sampleDB2 1 { details := some [c4item] }).1.offerDetails =
          sampleDB2.offerDetails.map
            (fun x => if x.id = (sampleDetail 2 OfferType.basic 100 7).id
              then applyDetailPatch (sampleDetail 2 OfferType.basic 100 7) c4item
              else x))
    ∧ ((applyDetailPatch (sampleDetail 2 OfferType.basic 100 7) c4item).title =
        (sampleDetail 2 OfferType.basic 100 7).title
      ∧ (applyDetailPatch (sampleDetail 2 OfferType.basic 100 7) c4item).price = 150)
    ∧ ((updateOffer sampleDB2 1 { title := some "New", details := some [c4item] }).2 =
        .ok ()) := by
  have hbasic : patchTargets sampleDB2 1 c4item :=
    ⟨"basic", rfl, by decide⟩
  refine ⟨?_, ?_, ?_, ?_, ?_⟩
  · exact (C4_offer_update_details sampleDB2 1 sampleOffer
      { details := some [c4item, c4noType] } [c4item] [] c4noType "basic"
      (sampleDetail 2 OfferType.basic 100 7) (by decide) (by decide)).1
      rfl (by decide)
      (fun q hq => by
        simp only [List.mem_singleton] at hq
        rw [hq]; exact hbasic)
      rfl
  · exact (C4_offer_update_details sampleDB2 1 sampleOffer
      { details := some [c4item, { offer_type := some "premium" }] } [c4item] []
      { offer_type := some "premium" } "premium"
      (sampleDetail 2 OfferType.basic 100 7) (by decide) (by decide)).2.1
      rfl (by decide)
      (fun q hq => by
        simp only [List.mem_singleton] at hq
        rw [hq]; exact hbasic)
      rfl (by decide)
  · exact (C4_offer_update_details sampleDB2 1 sampleOffer
      { details := some [c4item] } [] [] c4item "basic"
      (sampleDetail 2 OfferType.basic 100 7) (by decide) (by decide)).2.2.1
      rfl (by decide) rfl (by decide)
  · have h := (C4_offer_update_details sampleDB2 1 sampleOffer
      { details := some [c4item] } [] [] c4item "basic"
      (sampleDetail 2 OfferType.basic 100 7) (by decide) (by decide)).2.2.2.1
    exact ⟨h.1 rfl, h.2.2.2.2.2.2.2.2.2.2.1 150 rfl⟩
  · exact (C4_offer_update_details sampleDB2 1 sampleOffer
      { title := some "New", details := some [c4item] } [] [] c4item "basic"
      (sampleDetail 2 OfferType.basic 100 7) (by decide) (by decide)).2.2.2.2
      [c4item] rfl (by decide)
      (fun q hq => by
        simp only [List.mem_singleton] at hq
        rw [hq]; exact hbasic)

/-! ### Lemmas about review creation -/

/-- C5: review creation rejects a rating outside 1..5 and a self-review
with a `ValidationError`; with valid inputs the first create for a pair
succeeds and appends the row, after which every later create for the
same pair fails and changes nothing — with the already-reviewed error
whenever the later rating passes field validation (an out-of-range
rating fails first with the rating error); creation preserves the
uniqueness of the `(business_user, reviewer)` pair across the table. -/
theorem C5_review_pair_unique (db : DB) (rid bid : Nat) (rating : Nat) (desc : String) :
    (rating < 1 ∨ 5 < rating →
      createReview db rid bid rating desc =
        (db, .error (.validation "rating must be between 1 and 5")))
    ∧ (1 ≤ rating → rating ≤ 5 → bid = rid →
      createReview db rid bid rating desc =
        (db, .error (.validation "You cannot create a review for yourself!")))
    ∧ (1 ≤ rating → rating ≤ 5 → bid ≠ rid →
      db.reviews.any (fun r => r.business_user = bid && r.reviewer = rid) = false →
      (createReview db rid bid rating desc).2 = .ok db.nextId
      ∧ (createReview db rid bid rating desc).1.reviews =
          db.reviews ++ [{ id := db.nextId, business_user := bid, reviewer := rid
                           rating := rating, description := desc }])
    ∧ (∀ db2 revId, createReview db rid bid rating desc = (db2, .ok revId) →
      ∀ rating2 desc2,
        (createReview db2 rid bid rating2 desc2).1 = db2
        ∧ (∃ e, (createReview db2 rid bid rating2 desc2).2 = .error e)
        ∧ (1 ≤ rating2 → rating2 ≤ 5 →
            (createReview db2 rid bid rating2 desc2).2 =
              .error (.validation
                "You have already submitted a review for this business.")))
    ∧ ((db.reviews.Pairwise fun a b =>
          ¬(a.business_user = b.business_user ∧ a.reviewer = b.reviewer)) →
      ((createReview db rid bid rating desc).1.reviews.Pairwise fun a b =>
          ¬(a.business_user = b.business_user ∧ a.reviewer = b.reviewer))) := by
  refine ⟨?_, ?_, ?_, ?_, ?_⟩
  · intro h
    simp only [createReview]
    rw [if_pos h]
  · intro h1 h2 hb
    have hnot : ¬(rating < 1 ∨ 5 < rating) := by omega
    simp only [createReview]
    rw [if_neg hnot, if_pos hb]
  · intro h1 h2 hb hdup
    have hnot : ¬(rating < 1 ∨ 5 < rating) := by omega
    have hdup2 : ¬(db.reviews.any
        (fun r => r.business_user = bid && r.reviewer = rid) = true) := by
      rw [hdup]; exact Bool.false_ne_true
    constructor
    · simp only [createReview]
      rw [if_neg hnot, if_neg hb, if_neg hdup2]
    · simp only [createReview]
      rw [if_neg hnot, if_neg hb, if_neg hdup2]
  · intro db2 revId hok rating2 desc2
    simp only [createReview] at hok
    by_cases h1 : rating < 1 ∨ 5 < rating
    · rw [if_pos h1] at hok
      exact absurd (congrArg Prod.snd hok) (by simp)
    · by_cases hb : bid = rid
      · rw [if_neg h1, if_pos hb] at hok
        exact absurd (congrArg Prod.snd hok) (by simp)
      · by_cases hd : db.reviews.any
            (fun r => r.business_user = bid && r.reviewer = rid) = true
        · rw [if_neg h1, if_neg hb, if_pos hd] at hok
          exact absurd (congrArg Prod.snd hok) (by simp)
        · rw [if_neg h1, if_neg hb, if_neg hd] at hok
          have hfst := congrArg Prod.fst hok
          dsimp only at hfst
          have hdup2 : db2.reviews.any
              (fun r => r.business_user = bid && r.reviewer = rid) = true := by
            rw [← hfst]
            simp
          refine ⟨?_, ?_, ?_⟩
          · by_cases k1 : rating2 < 1 ∨ 5 < rating2
            · simp only [createReview]; rw [if_pos k1]
            · simp only [createReview]; rw [if_neg k1, if_neg hb, if_pos hdup2]
          · by_cases k1 : rating2 < 1 ∨ 5 < rating2
            · refine ⟨.validation "rating must be between 1 and 5", ?_⟩
              simp only [createReview]; rw [if_pos k1]
            · refine ⟨.validation
                "You have already submitted a review for this business.", ?_⟩
              simp only [createReview]; rw [if_neg k1, if_neg hb, if_pos hdup2]
          · intro hr1 hr2
            have k1 : ¬(rating2 < 1 ∨ 5 < rating2) := by omega
            simp only [createReview]; rw [if_neg k1, if_neg hb, if_pos hdup2]
  · intro hpw
    simp only [createReview]
    by_cases h1 : rating < 1 ∨ 5 < rating
    · rw [if_pos h1]; exact hpw
    · by_cases hb : bid = rid
      · rw [if_neg h1, if_pos hb]; exact hpw
      · by_cases hd : db.reviews.any
            (fun r => r.business_user = bid && r.reviewer = rid) = true
        · rw [if_neg h1, if_neg hb, if_pos hd]; exact hpw
        · rw [if_neg h1, if_neg hb, if_neg hd]
          refine (List.pairwise_append).mpr ⟨hpw, List.pairwise_singleton _ _, ?_⟩
          intro a ha b hbmem
          simp only [List.mem_singleton] at hbmem
          subst hbmem
          rintro ⟨hb1, hb2⟩
          apply hd
          rw [List.any_eq_true]
          refine ⟨a, ha, ?_⟩
          simp only [Bool.and_eq_true, decide_eq_true_eq]
          exact ⟨by simpa using hb1, by simpa using hb2⟩

/-- The store after the first sample review create. -/
def c5db : DB := (createReview emptyDB 20 10 5 "nice").1

/-- C5 counterexample for the later-create error message: once the pair
(10, 20) exists, a later create with rating 9 fails field validation
first, so the error is the rating error and not the already-reviewed
error, although the duplicate pair is present. -/
theorem C5_later_create_rating_masks_duplicate_counterexample :
    ((createReview c5db 20 10 9 "again").2 =
      .error (.validation "rating must be between 1 and 5"))
    ∧ ((createReview c5db 20 10 9 "again").1 = c5db)
    ∧ ("rating must be between 1 and 5" ≠
        "You have already submitted a review for this business.")
    ∧ (c5db.reviews.any (fun r => r.business_user = 10 && r.reviewer = 20) = true) := by
  refine ⟨rfl, ?_, ?_, ?_⟩ <;> decide

/-- Concrete instantiation of `C5_review_pair_unique`: rating 9 and a
self-review are rejected, the first review of business 10 by reviewer
20 succeeds, and the second attempt for the same pair with a valid
rating fails with the already-reviewed error, leaving the store
unchanged. -/
theorem C5_review_pair_unique_witness :
    (createReview emptyDB 20 10 9 "" =
      (emptyDB, .error (.validation "rating must be between 1 and 5")))
    ∧ (createReview emptyDB 20 20 5 "" =
      (emptyDB, .error (.validation "You cannot create a review for yourself!")))
    ∧ ((createReview emptyDB 20 10 5 "nice").2 = .ok 1
      ∧ (createReview emptyDB 20 10 5 "nice").1.reviews =
          emptyDB.reviews ++ [{ id := 1, business_user := 10, reviewer := 20
                                rating := 5, description := "nice" }])
    ∧ ((createReview c5db 20 10 4 "later").1 = c5db
      ∧ (createReview c5db 20 10 4 "later").2 =
          .error (.validation "You have already submitted a review for this business."))
    ∧ ((createReview emptyDB 20 10 5 "nice").1.reviews.Pairwise fun a b =>
        ¬(a.business_user = b.business_user ∧ a.reviewer = b.reviewer)) := by
  refine ⟨?_, ?_, ?_, ?_, ?_⟩
  · exact (C5_review_pair_unique emptyDB 20 10 9 "").1 (by decide)
  · exact (C5_review_pair_unique emptyDB 20 20 5 "").2.1 (by decide) (by decide) rfl
  · exact (C5_review_pair_unique emptyDB 20 10 5 "nice").2.2.1
      (by decide) (by decide) (by decide) (by decide)
  · have h4 := (C5_review_pair_unique emptyDB 20 10 5 "nice").2.2.2.1 c5db 1 rfl 4 "later"
    exact ⟨h4.1, h4.2.2 (by decide) (by decide)⟩
  · exact (C5_review_pair_unique emptyDB 20 10 5 "nice").2.2.2.2 List.Pairwise.nil

/-! ### Lemmas about the order status update -/

/-- A nonempty extra-key list fails the strict check with the listing
error, whatever the validated status value was. -/
theorem updateOrderStatusValidated_extra (db : DB) (oid : Nat)
    (payload : List (String × String)) (st? : Option OrderStatus)
    (hextra : extraKeys payload ≠ []) :
    updateOrderStatusValidated db oid payload st? =
      (db, .error (.validation
        ("Only the status field can be updated. Unrecognized fields provided: "
          ++ String.intercalate ", " (extraKeys payload)))) := by
  have h : (extraKeys payload).isEmpty = false := by
    rcases he : extraKeys payload with _ | ⟨a, t⟩
    · exact absurd he hextra
    · rfl
  unfold updateOrderStatusValidated
  rw [if_neg (by rw [h]; exact Bool.false_ne_true)]

/-- C6: a status update whose payload holds any key other than `status`
fails with a `ValidationError` and leaves the store unchanged — with
the unrecognized keys listed whenever the field validation of `status`
itself passes — while a payload holding only a valid `status` succeeds
and rewrites only the status of the addressed order. -/
theorem C6_order_status_update_strict (db : DB) (oid : Nat) (ord : Order)
    (payload : List (String × String)) (sv : String) (st : OrderStatus)
    (hord : db.orders.find? (fun o => o.id = oid) = some ord) :
    (extraKeys payload ≠ [] →
      (updateOrderStatus db oid payload).1 = db
      ∧ ∃ msg, (updateOrderStatus db oid payload).2 = .error (.validation msg))
    ∧ (extraKeys payload ≠ [] →
      (∀ k v, payload.find? (fun kv => kv.1 = "status") = some (k, v) →
        (parseOrderStatus v).isSome = true) →
      (updateOrderStatus db oid payload).2 = .error (.validation
        ("Only the status field can be updated. Unrecognized fields provided: "
          ++ String.intercalate ", " (extraKeys payload))))
    ∧ (parseOrderStatus sv = some st →
      (updateOrderStatus db oid [("status", sv)]).2 = .ok ()
      ∧ (updateOrderStatus db oid [("status", sv)]).1.orders =
          db.orders.map (fun o => if o.id = oid then { o with status := st } else o)
      ∧ (updateOrderStatus db oid [("status", sv)]).1.offers = db.offers
      ∧ (updateOrderStatus db oid [("status", sv)]).1.offerDetails = db.offerDetails
      ∧ (updateOrderStatus db oid [("status", sv)]).1.reviews = db.reviews
      ∧ (updateOrderStatus db oid [("status", sv)]).1.users = db.users
      ∧ (updateOrderStatus db oid [("status", sv)]).1.profiles = db.profiles) := by
  refine ⟨?_, ?_, ?_⟩
  · intro hextra
    rcases hs : payload.find? (fun kv => kv.1 = "status") with _ | ⟨k, v⟩
    · simp only [updateOrderStatus, hord, hs]
      rw [updateOrderStatusValidated_extra db oid payload none hextra]
      exact ⟨rfl, _, rfl⟩
    · rcases hp : parseOrderStatus v with _ | st2
      · refine ⟨?_, v ++ " is not a valid choice.", ?_⟩
        · simp only [updateOrderStatus, hord, hs, hp]
        · simp only [updateOrderStatus, hord, hs, hp]
      · simp only [updateOrderStatus, hord, hs, hp]
        rw [updateOrderStatusValidated_extra db oid payload (some st2) hextra]
        exact ⟨rfl, _, rfl⟩
  · intro hextra hvalid
    rcases hs : payload.find? (fun kv => kv.1 = "status") with _ | ⟨k, v⟩
    · simp only [updateOrderStatus, hord, hs]
      rw [updateOrderStatusValidated_extra db oid payload none hextra]
    · have hp := hvalid k v hs
      obtain ⟨st2, hst2⟩ := Option.isSome_iff_exists.1 hp
      simp only [updateOrderStatus, hord, hs, hst2]
      rw [updateOrderStatusValidated_extra db oid payload (some st2) hextra]
  · intro hparse
    have hfind : ([("status", sv)] : List (String × String)).find?
        (fun kv => kv.1 = "status") = some ("status", sv) := by simp
    simp only [updateOrderStatus, hord, hfind, hparse]
    exact ⟨rfl, rfl, rfl, rfl, rfl, rfl, rfl⟩

/-- C6 counterexample for the error listing: when the payload carries
an extra key and an invalid `status` value, DRF field validation runs
before the `validate` hook, so the operation fails with the
invalid-choice error, which does not list the unrecognized fields
although one is present. -/
theorem C6_invalid_status_masks_extra_keys_counterexample :
    ((updateOrderStatus sampleDB 5 [("status", "bogus"), ("price", "1")]).2 =
      .error (.validation "bogus is not a valid choice."))
    ∧ ("bogus is not a valid choice." ≠
        ("Only the status field can be updated. Unrecognized fields provided: "
          ++ String.intercalate ", " (extraKeys [("status", "bogus"), ("price", "1")])))
    ∧ extraKeys [("status", "bogus"), ("price", "1")] ≠ [] := by
  refine ⟨rfl, ?_, ?_⟩ <;> decide

/-- Concrete instantiation of `C6_order_status_update_strict` on the
sample store: a payload also carrying `price` is rejected with the key
listed and nothing changes, while `status = completed` alone rewrites
only the status of order 5. -/
theorem C6_order_status_update_strict_witness :
    ((updateOrderStatus sampleDB 5 [("status", "completed"), ("price", "999")]).1 =
        sampleDB
      ∧ ∃ msg, (updateOrderStatus sampleDB 5
          [("status", "completed"), ("price", "999")]).2 = .error (.validation msg))
    ∧ ((updateOrderStatus sampleDB 5 [("status", "completed"), ("price", "999")]).2 =
        .error (.validation
          ("Only the status field can be updated. Unrecognized fields provided: "
            ++ String.intercalate ", "
              (extraKeys [("status", "completed"), ("price", "999")]))))
    ∧ ((updateOrderStatus sampleDB 5 [("status", "completed")]).2 = .ok ()
      ∧ (updateOrderStatus sampleDB 5 [("status", "completed")]).1.orders =
          sampleDB.orders.map (fun o => if o.id = 5 then
            { o with status := OrderStatus.completed } else o)) := by
  have h1 := C6_order_status_update_strict sampleDB 5
    (sampleDB.orders.getLast (by decide))
    [("status", "completed"), ("price", "999")] "completed" OrderStatus.completed
    (by decide)
  refine ⟨h1.1 (by decide), ?_, ?_⟩
  · exact h1.2.1 (by decide)
      (fun k v hkv => by
        simp at hkv
        rcases hkv with ⟨h1, h2⟩
        subst h2
        rfl)
  · have h3 := h1.2.2 (by rfl)
    exact ⟨h3.1, h3.2.1⟩

/-! ### Atomicity of the operations -/

/-- C8 counterexample: the nested offer update is not all-or-nothing.
On the sample store, a patch renaming the offer and carrying a valid
basic-price item followed by an item without `offer_type` fails with a
`ValidationError`, yet the persisted state keeps the new title and the
new basic price: the earlier writes of the failed request remain. -/
theorem C8_offer_update_partial_persist_counterexample :
    ((updateOffer sampleDB 1
        { title := some "New", details := some [c4item, c4noType] }).2 =
      .error (.validation "Each detail to be updated must have an offer_type."))
    ∧ ((updateOffer sampleDB 1
        { title := some "New", details := some [c4item, c4noType] }).1.offers.map
          (fun o => o.title) = ["New"])
    ∧ (sampleDB.offers.map (fun o => o.title) = ["Site"])
    ∧ ((updateOffer sampleDB 1
        { title := some "New", details := some [c4item, c4noType] }).1.offerDetails.map
          (fun d => d.price) = [150, 200, 300])
    ∧ (sampleDB.offerDetails.map (fun d => d.price) = [100, 200, 300])
    ∧ (updateOffer sampleDB 1
        { title := some "New", details := some [c4item, c4noType] }).1 ≠ sampleDB := by
  refine ⟨rfl, ?_, ?_, ?_, ?_, ?_⟩ <;> decide

/-- C8 (amended): every modelled operation other than the nested offer
update is all-or-nothing — a failing offer creation, order creation,
order status update, review creation, review update or profile update
leaves the store exactly as it was. -/
theorem C8_failed_operations_leave_store_unchanged (db : DB) :
    (∀ u t d img ds e, (createOffer db u t d img ds).2 = .error e →
      (createOffer db u t d img ds).1 = db)
    ∧ (∀ cid odid e, (createOrder db cid odid).2 = .error e →
      (createOrder db cid odid).1 = db)
    ∧ (∀ oid payload e, (updateOrderStatus db oid payload).2 = .error e →
      (updateOrderStatus db oid payload).1 = db)
    ∧ (∀ rid bid rating desc e, (createReview db rid bid rating desc).2 = .error e →
      (createReview db rid bid rating desc).1 = db)
    ∧ (∀ rvid payload e, (updateReview db rvid payload).2 = .error e →
      (updateReview db rvid payload).1 = db)
    ∧ (∀ uid patch e, (updateProfile db uid patch).2 = .error e →
      (updateProfile db uid patch).1 = db) := by
  refine ⟨?_, ?_, ?_, ?_, ?_, ?_⟩
  · intro u t d img ds e herr
    by_cases hv : ds.all detailPayloadValid
    · by_cases hlen : ds.length = 3
      · exfalso
        simp only [createOffer] at herr
        rw [if_neg (by simpa using hv), if_neg (by simpa using hlen)] at herr
        cases herr
      · simp only [createOffer]
        rw [if_neg (by simpa using hv), if_pos (by simpa using hlen)]
    · simp only [createOffer]
      rw [if_pos (by simpa using hv)]
  · intro cid odid e herr
    rcases h1 : db.offerDetails.find? (fun x => x.id = odid) with _ | od
    · simp only [createOrder, h1]
    · rcases h2 : db.offers.find? (fun o => o.id = od.offerId) with _ | parent
      · simp only [createOrder, h1, h2]
      · by_cases h3 : parent.userId = cid
        · simp only [createOrder, h1, h2]
          rw [if_pos h3]
        · exfalso
          simp only [createOrder, h1, h2] at herr
          rw [if_neg h3] at herr
          cases herr
  · intro oid payload e herr
    rcases h1 : db.orders.find? (fun o => o.id = oid) with _ | ord
    · simp only [updateOrderStatus, h1]
    · rcases h2 : payload.find? (fun kv => kv.1 = "status") with _ | ⟨k, v⟩
      · simp only [updateOrderStatus, h1, h2] at herr ⊢
        unfold updateOrderStatusValidated at herr ⊢
        by_cases h4 : (extraKeys payload).isEmpty = true
        · rw [if_pos h4] at herr; cases herr
        · rw [if_neg h4]
      · rcases h3 : parseOrderStatus v with _ | st
        · simp only [updateOrderStatus, h1, h2, h3]
        · simp only [updateOrderStatus, h1, h2, h3] at herr ⊢
          unfold updateOrderStatusValidated at herr ⊢
          by_cases h4 : (extraKeys payload).isEmpty = true
          · rw [if_pos h4] at herr; cases herr
          · rw [if_neg h4]
  · intro rid bid rating desc e herr
    simp only [createReview] at herr ⊢
    by_cases h1 : rating < 1 ∨ 5 < rating
    · rw [if_pos h1]
    · by_cases h2 : bid = rid
      · rw [if_neg h1, if_pos h2]
      · by_cases h3 : db.reviews.any
            (fun r => r.business_user = bid && r.reviewer = rid) = true
        · rw [if_neg h1, if_neg h2, if_pos h3]
        · exfalso
          rw [if_neg h1, if_neg h2, if_neg h3] at herr
          cases herr
  · intro rvid payload e herr
    rcases h1 : db.reviews.find? (fun r => r.id = rvid) with _ | rv
    · simp only [updateReview, h1]
    · rcases h2 : payload.find? (fun kv => kv.1 = "rating") with _ | ⟨k, v⟩
      · exfalso
        simp only [updateReview, h1, h2] at herr
        cases herr
      · rcases v with n | str
        · by_cases h3 : 1 ≤ n ∧ n ≤ 5
          · exfalso
            simp only [updateReview, h1, h2] at herr
            rw [if_pos h3] at herr
            cases herr
          · simp only [updateReview, h1, h2] at herr ⊢
            rw [if_neg h3] at herr ⊢
        · simp only [updateReview, h1, h2]
  · intro uid patch e herr
    rcases h1 : db.profiles.find? (fun p => p.userId = uid) with _ | pr
    · simp only [updateProfile, h1]
    · exfalso
      simp only [updateProfile, h1] at herr
      cases herr

/-- Concrete instantiation of
`C8_failed_operations_leave_store_unchanged`: one failing call of each
operation, each leaving its store unchanged. -/
theorem C8_failed_operations_leave_store_unchanged_witness :
    ((createOffer emptyDB 1 "t" "d" none []).1 = emptyDB)
    ∧ ((createOrder sampleDB 20 99).1 = sampleDB)
    ∧ ((updateOrderStatus sampleDB 5 [("price", "1")]).1 = sampleDB)
    ∧ ((createReview emptyDB 20 20 5 "").1 = emptyDB)
    ∧ ((updateReview sampleDB 99 []).1 = sampleDB)
    ∧ ((updateProfile emptyDB 1 {}).1 = emptyDB) := by
  refine ⟨?_, ?_, ?_, ?_, ?_, ?_⟩
  · exact (C8_failed_operations_leave_store_unchanged emptyDB).1 1 "t" "d" none []
      (.validation
        "Exactly 3 detail packages are required for creation, but 0 were provided.")
      (by rfl)
  · exact (C8_failed_operations_leave_store_unchanged sampleDB).2.1 20 99
      .notFound (by rfl)
  · exact (C8_failed_operations_leave_store_unchanged sampleDB).2.2.1 5
      [("price", "1")]
      (.validation
        "Only the status field can be updated. Unrecognized fields provided: price")
      (by rfl)
  · exact (C8_failed_operations_leave_store_unchanged emptyDB).2.2.2.1 20 20 5 ""
      (.validation "You cannot create a review for yourself!") (by rfl)
  · exact (C8_failed_operations_leave_store_unchanged sampleDB).2.2.2.2.1 99 []
      .notFound (by rfl)
  · exact (C8_failed_operations_leave_store_unchanged emptyDB).2.2.2.2.2 1 {}
      .notFound (by rfl)

/-! ### Lemmas about the profile update -/

/-- C9 counterexample: the role is not immutable through the profile
endpoint.  `type` is a declared field of `ProfileSerializer` and is not
in `read_only_fields`, so a patch carrying `type` rewrites the role:
user 20 turns from customer into business. -/
theorem C9_profile_role_writable_counterexample :
    ((updateProfile sampleDB 20 { type := some UserType.business }).2 = .ok ())
    ∧ (sampleDB.profiles.map (fun q => q.type) =
        [UserType.business, UserType.customer])
    ∧ ((updateProfile sampleDB 20 { type := some UserType.business }).1.profiles.map
        (fun q => q.type) = [UserType.business, UserType.business]) := by
  refine ⟨rfl, ?_, ?_⟩ <;> decide

/-- C9 (amended): an owner profile patch succeeds; `email`,
`first_name` and `last_name` land on the linked `User` row, the other
recognized keys land on the `Profile` row; `username` is read-only and
silently ignored; but the role (`type`) is writable: a present `type`
key replaces the stored role. -/
theorem C9_profile_update_targets (db : DB) (uid : Nat) (patch : ProfilePatch)
    (pr : Profile)
    (hfind : db.profiles.find? (fun p => p.userId = uid) = some pr) :
    (updateProfile db uid patch).2 = .ok ()
    ∧ (updateProfile db uid patch).1.users =
        db.users.map (fun u => if u.id = uid then
          { u with email := patch.email.getD u.email
                   first_name := patch.first_name.getD u.first_name
                   last_name := patch.last_name.getD u.last_name } else u)
    ∧ (updateProfile db uid patch).1.profiles =
        db.profiles.map (fun q => if q.userId = uid then
          { q with
              file := match patch.file with | none => q.file | some f => some f
              location := patch.location.getD q.location
              tel := patch.tel.getD q.tel
              description := patch.description.getD q.description
              working_hours := patch.working_hours.getD q.working_hours
              type := patch.type.getD q.type } else q)
    ∧ (updateProfile db uid patch).1.users.map (fun u => u.username) =
        db.users.map (fun u => u.username)
    ∧ (updateProfile db uid patch).1.users.map (fun u => u.id) =
        db.users.map (fun u => u.id)
    ∧ (updateProfile db uid patch).1.profiles.map (fun q => (q.userId, q.type)) =
        db.profiles.map (fun q =>
          (q.userId, if q.userId = uid then patch.type.getD q.type else q.type))
    ∧ (updateProfile db uid patch).1.profiles.map (fun q => q.location) =
        db.profiles.map (fun q =>
          if q.userId = uid then patch.location.getD q.location else q.location)
    ∧ (updateProfile db uid patch).1.offers = db.offers
    ∧ (updateProfile db uid patch).1.orders = db.orders
    ∧ (updateProfile db uid patch).1.reviews = db.reviews := by
  refine ⟨?_, ?_, ?_, ?_, ?_, ?_, ?_, ?_, ?_, ?_⟩
  · simp only [updateProfile, hfind]
  · simp only [updateProfile, hfind]
  · simp only [updateProfile, hfind]
  · simp only [updateProfile, hfind]
    rw [List.map_map]
    apply List.map_congr_left
    intro u _
    by_cases h : u.id = uid <;> simp [Function.comp, h]
  · simp only [updateProfile, hfind]
    rw [List.map_map]
    apply List.map_congr_left
    intro u _
    by_cases h : u.id = uid <;> simp [Function.comp, h]
  · simp only [updateProfile, hfind]
    rw [List.map_map]
    apply List.map_congr_left
    intro q _
    by_cases h : q.userId = uid <;> simp [Function.comp, h]
  · simp only [updateProfile, hfind]
    rw [List.map_map]
    apply List.map_congr_left
    intro q _
    by_cases h : q.userId = uid <;> simp [Function.comp, h]
  · simp only [updateProfile, hfind]
  · simp only [updateProfile, hfind]
  · simp only [updateProfile, hfind]

/-- A sample profile patch: new email and location, an attempted
username change, no role key. -/
def c9patch : ProfilePatch :=
  { email := some "n@x.de", location := some "Berlin", username := some "hack" }

/-- Concrete instantiation of `C9_profile_update_targets` on the
sample store for user 20: the patch succeeds, the username stays
although the patch submits one, and the roles stay because the patch
has no `type` key. -/
theorem C9_profile_update_targets_witness :
    ((updateProfile sampleDB 20 c9patch).2 = .ok ())
    ∧ ((updateProfile sampleDB 20 c9patch).1.profiles =
        sampleDB.profiles.map (fun q => if q.userId = 20 then
          { q with
              file := match c9patch.file with | none => q.file | some f => some f
              location := c9patch.location.getD q.location
              tel := c9patch.tel.getD q.tel
              description := c9patch.description.getD q.description
              working_hours := c9patch.working_hours.getD q.working_hours
              type := c9patch.type.getD q.type } else q))
    ∧ ((updateProfile sampleDB 20 c9patch).1.users.map (fun u => u.username) =
        sampleDB.users.map (fun u => u.username))
    ∧ ((updateProfile sampleDB 20 c9patch).1.profiles.map (fun q => (q.userId, q.type)) =
        sampleDB.profiles.map (fun q =>
          (q.userId, if q.userId = 20 then c9patch.type.getD q.type else q.type))) := by
  have h := C9_profile_update_targets sampleDB 20 c9patch
    { userId := 20, file := none, location := "", tel := "", description := ""
      working_hours := "", type := UserType.customer } (by rfl)
  exact ⟨h.1, h.2.2.1, h.2.2.2.1, h.2.2.2.2.2.1⟩

/-! ### Lemmas about the review update -/

theorem find?_filter_of_imp {α : Type} (p q : α → Bool)
    (h : ∀ a, p a = true → q a = true) :
    ∀ l : List α, (l.filter q).find? p = l.find? p := by
  intro l
  induction l with
  | nil => rfl
  | cons a t ih =>
    by_cases hq : q a = true
    · rw [List.filter_cons_of_pos hq]
      by_cases hp : p a = true
      · rw [List.find?_cons_of_pos _ hp, List.find?_cons_of_pos _ hp]
      · rw [List.find?_cons_of_neg _ (by simpa using hp),
          List.find?_cons_of_neg _ (by simpa using hp), ih]
    · have hp : ¬ p a = true := fun hc => hq (h a hc)
      rw [List.filter_cons_of_neg (by simpa using hq),
        List.find?_cons_of_neg _ (by simpa using hp), ih]

/-- C10: a review update reads only the `rating` and `description`
entries of the payload — dropping every other key without an error, so
the result equals the update with the payload restricted to those two
keys — and when the present entries are valid it succeeds rewriting
only the addressed review, whose identity fields and all other tables
keep their values. -/
theorem C10_review_update_ignores_other_keys (db : DB) (rvid : Nat)
    (payload : List (String × JVal)) (rv : Review)
    (hfind : db.reviews.find? (fun r => r.id = rvid) = some rv)
    (hrating : ∀ k v, payload.find? (fun kv => kv.1 = "rating") = some (k, v) →
      ∃ n, v = JVal.jn n ∧ 1 ≤ n ∧ n ≤ 5) :
    (updateReview db rvid payload).2 = .ok ()
    ∧ (∃ rv2 : Review,
        (updateReview db rvid payload).1.reviews =
          db.reviews.map (fun r => if r.id = rvid then rv2 else r)
        ∧ rv2.id = rv.id
        ∧ rv2.business_user = rv.business_user
        ∧ rv2.reviewer = rv.reviewer)
    ∧ (updateReview db rvid payload).1.users = db.users
    ∧ (updateReview db rvid payload).1.profiles = db.profiles
    ∧ (updateReview db rvid payload).1.offers = db.offers
    ∧ (updateReview db rvid payload).1.offerDetails = db.offerDetails
    ∧ (updateReview db rvid payload).1.orders = db.orders
    ∧ updateReview db rvid payload =
        updateReview db rvid (payload.filter
          (fun kv => kv.1 = "rating" || kv.1 = "description")) := by
  have hrfilter : (payload.filter
        (fun kv => kv.1 = "rating" || kv.1 = "description")).find?
        (fun kv => kv.1 = "rating") = payload.find? (fun kv => kv.1 = "rating") :=
    find?_filter_of_imp _ _
      (fun a ha => by simp only [Bool.or_eq_true]; exact Or.inl ha) payload
  have hdfilter : (payload.filter
        (fun kv => kv.1 = "rating" || kv.1 = "description")).find?
        (fun kv => kv.1 = "description") =
        payload.find? (fun kv => kv.1 = "description") :=
    find?_filter_of_imp _ _
      (fun a ha => by simp only [Bool.or_eq_true]; exact Or.inr ha) payload
  have hlast : updateReview db rvid payload =
      updateReview db rvid (payload.filter
        (fun kv => kv.1 = "rating" || kv.1 = "description")) := by
    simp only [updateReview, hrfilter, hdfilter]
  have hmain : ∃ rv2 : Review,
      updateReview db rvid payload =
        ({ db with reviews := db.reviews.map (fun r => if r.id = rvid then rv2 else r) },
          .ok ())
      ∧ rv2.id = rv.id ∧ rv2.business_user = rv.business_user
      ∧ rv2.reviewer = rv.reviewer := by
    rcases hr : payload.find? (fun kv => kv.1 = "rating") with _ | ⟨k, v⟩
    · rcases hdsc : payload.find? (fun kv => kv.1 = "description") with _ | ⟨k2, v2⟩
      · refine ⟨rv, ?_, rfl, rfl, rfl⟩
        simp only [updateReview, hfind, hr, hdsc]
      · rcases v2 with n2 | s2
        · refine ⟨{ rv with description := toString n2 }, ?_, rfl, rfl, rfl⟩
          simp only [updateReview, hfind, hr, hdsc]
        · refine ⟨{ rv with description := s2 }, ?_, rfl, rfl, rfl⟩
          simp only [updateReview, hfind, hr, hdsc]
    · obtain ⟨n, hv, h1, h5⟩ := hrating k v hr
      subst hv
      rcases hdsc : payload.find? (fun kv => kv.1 = "description") with _ | ⟨k2, v2⟩
      · refine ⟨{ rv with rating := n.toNat }, ?_, rfl, rfl, rfl⟩
        simp only [updateReview, hfind, hr, hdsc]
        rw [if_pos ⟨h1, h5⟩]
      · rcases v2 with n2 | s2
        · refine ⟨{ rv with rating := n.toNat, description := toString n2 },
            ?_, rfl, rfl, rfl⟩
          simp only [updateReview, hfind, hr, hdsc]
          rw [if_pos ⟨h1, h5⟩]
        · refine ⟨{ rv with rating := n.toNat, description := s2 },
            ?_, rfl, rfl, rfl⟩
          simp only [updateReview, hfind, hr, hdsc]
          rw [if_pos ⟨h1, h5⟩]
  obtain ⟨rv2, hres, hid, hbu, hrv⟩ := hmain
  exact ⟨by simp only [hres], ⟨rv2, by simp only [hres], hid, hbu, hrv⟩,
    by simp only [hres], by simp only [hres], by simp only [hres],
    by simp only [hres], by simp only [hres], hlast⟩

/-- Concrete instantiation of `C10_review_update_ignores_other_keys`
on the sample store: a payload with a new rating, a `business_user` key
and an unknown key succeeds, changes only review 6 and equals the
update with the payload restricted to `rating` and `description`. -/
theorem C10_review_update_ignores_other_keys_witness :
    ((updateReview sampleDB 6
        [("rating", JVal.jn 4), ("business_user", JVal.jn 99),
          ("foo", JVal.js "bar")]).2 = .ok ())
    ∧ (∃ rv2 : Review,
        (updateReview sampleDB 6
          [("rating", JVal.jn 4), ("business_user", JVal.jn 99),
            ("foo", JVal.js "bar")]).1.reviews =
          sampleDB.reviews.map (fun r => if r.id = 6 then rv2 else r)
        ∧ rv2.id = 6 ∧ rv2.business_user = 10 ∧ rv2.reviewer = 20)
    ∧ updateReview sampleDB 6
        [("rating", JVal.jn 4), ("business_user", JVal.jn 99),
          ("foo", JVal.js "bar")] =
      updateReview sampleDB 6
        ([("rating", JVal.jn 4), ("business_user", JVal.jn 99),
          ("foo", JVal.js "bar")].filter
            (fun kv => kv.1 = "rating" || kv.1 = "description")) := by
  have h := C10_review_update_ignores_other_keys sampleDB 6
    [("rating", JVal.jn 4), ("business_user", JVal.jn 99), ("foo", JVal.js "bar")]
    { id := 6, business_user := 10, reviewer := 20, rating := 5, description := "top" }
    (by rfl)
    (fun k v hkv => by
      simp at hkv
      rcases hkv with ⟨hk, hv⟩
      subst hv
      exact ⟨4, rfl, by omega, by omega⟩)
  exact ⟨h.1, h.2.1, h.2.2.2.2.2.2.2⟩

end Coderr
